import Mathlib

/-!
Shallow embedding of the sync, discovery and transport layers of the
tap-zuora extraction engine (tap_zuora/sync.py, tap_zuora/discover.py,
tap_zuora/client.py, tap_zuora/apis.py).

Modelling conventions, used throughout:

* Replication-key values and time instants are modelled by a value type
  with a linear order.  The AQuA timeout handler and the REST window walk
  do arithmetic on instants (pendulum datetimes); there the value type is
  specialised to Nat, a time point in abstract units since the epoch, with
  truncated subtraction and floor division standing for pendulum period
  arithmetic.  The strftime / pendulum.parse round trips of the source are
  order embeddings between instants and their formatted strings and are
  not modelled separately.
* A run's observable output (singer.write_record / singer.write_state) is
  a list of messages; every state flush snapshots the in-memory state of
  the single stream being synced.
* The state dict "bookmarks"[tap_stream_id] is a record: the replication
  key entry, the file_ids entry (absent, JSON null, or a list), the
  current_window_end entry, the version entry and the window_length entry.
* CSV lines arrive already split into cells (csv.reader is a boundary
  parser; an empty raw byte line is the empty cell list).  Header
  conversion (convert_header) is embedded literally over the cell strings.
* HTTP is an oracle: the environment provides the outcome of streaming a
  file (the parsed lines, or an HTTP error status) and the outcome of
  submitting and polling an export job (its file ids, a failure message,
  or a timeout of the 12 hour polling budget).
* singer.transform is an external library (out of scope per the spec);
  the environment carries it as an opaque coercion from a zipped row to a
  record (association list of field name and coerced value).
-/

/-- Character-list test: does the first list occur at the head of the second. -/
def leadMatch : List Char → List Char → Bool
  | [], _ => true
  | _ :: _, [] => false
  | p :: ps, x :: xs => p = x && leadMatch ps xs

/-- Character-list test: does the first list occur anywhere in the second
(the Python `pat in s` substring test). -/
def hasSub (pat : List Char) : List Char → Bool
  | [] => leadMatch pat []
  | x :: xs => leadMatch pat (x :: xs) || hasSub pat xs

/-- Splitting a character list at every occurrence of a separator character
(the Python str.split(sep) for a one-character separator). -/
def splitOnChar (c : Char) : List Char → List (List Char)
  | [] => [[]]
  | x :: xs =>
    let r := splitOnChar c xs
    if x = c then [] :: r
    else
      match r with
      | [] => [[x]]
      | y :: ys => (x :: y) :: ys

/-- The Python header.split(".") used by convert_header. -/
def split_dot (s : String) : List String :=
  (splitOnChar '.' s.data).map String.mk

/-- The Python header.replace(".", "") used by convert_header. -/
def remove_dots (s : String) : String :=
  String.mk (s.data.filter fun c => c ≠ '.')

/-- Embeds convert_header (sync.py lines 27-32): strip a leading
"stream." prefix from a CSV header cell, otherwise collapse the dots.
The IndexError the source would hit on a dot-free header equal to the
stream name is outside the model (that input never occurs in a header). -/
def convert_header (header : String) (stream : String) : String :=
  match split_dot header with
  | s0 :: s1 :: _ => if stream = s0 then s1 else remove_dots header
  | _ => remove_dots header

/-- Embeds parse_header_line (sync.py lines 35-36) over an already parsed
header line. -/
def parse_header_line (cells : List String) (stream : String) : List String :=
  cells.map fun h => convert_header h stream

/-- Value of the "file_ids" entry of a stream's bookmark dict: the key may
be absent (popped), hold JSON null, or hold a list of export file ids. -/
inductive FileIds where
  | absent
  | null
  | ids (l : List String)
  deriving DecidableEq

/-- Truthiness of state.get("file_ids") in Python: absent and null give
None, and an empty list is falsy as well. -/
def FileIds.falsy : FileIds → Bool
  | .absent => true
  | .null => true
  | .ids l => l.isEmpty

/-- The bookmark dict of the one stream being synced:
state["bookmarks"][tap_stream_id].  The replication-key entry is
`bookmark`; the other entries keep their state-file names. -/
structure TapState (α : Type) where
  bookmark : Option α
  fileIds : FileIds
  currentWindowEnd : Option α
  version : Option Nat
  windowLength : Option Nat
  deriving DecidableEq

/-- Catalog entry fields consulted by the sync engine. -/
structure StreamInfo where
  tapStreamId : String
  replicationKey : Option String
  deriving DecidableEq

/-- An observable output message: singer.write_record emits a record for a
stream, singer.write_state flushes a snapshot of the state. -/
inductive Msg (α : Type) where
  | record (stream : String) (rec : List (String × α))
  | state (st : TapState α)
  deriving DecidableEq

/-- Exceptions the sync layer can raise. -/
inductive SyncError where
  | fileIdNotFound (fileId : String)
  | nonRectangular (fileId : String) (found : Nat) (expected : Nat)
  | apiError (status : Nat)
  | exportFailed (message : String)
  | keyError
  | stopIteration
  deriving DecidableEq

/-- Result of a sync computation: normal return with the final in-memory
state, the messages written, and the record counter; or an exception
propagating after some messages were already written. -/
inductive RunResult (α : Type) where
  | ok (st : TapState α) (msgs : List (Msg α)) (counter : Nat)
  | err (e : SyncError) (st : TapState α) (msgs : List (Msg α))
  deriving DecidableEq

/-- Prefix the message log of a result (messages written before the
embedded computation ran). -/
def RunResult.withMsgs (m : List (Msg α)) : RunResult α → RunResult α
  | .ok st ms c => .ok st (m ++ ms) c
  | .err e st ms => .err e st (m ++ ms)

/-- Outcome of submitting an export job and polling it with
poll_job_until_done (sync.py lines 39-47): the job's file ids, an
ExportFailed from a failed job, or an ExportTimedOut after the 12 hour
polling budget. -/
inductive JobResult where
  | timeout
  | failed (message : String)
  | ok (fileIds : List String)
  deriving DecidableEq

/-- The oracle environment of a run: HTTP outcomes, the singer.transform
coercion, Python truthiness of replication values, and the wall clock. -/
structure Env (α : Type) where
  streamFile : String → Except Nat (List (List String))
  transform : List (String × String) → List (String × α)
  isFalsy : α → Bool
  now : Nat
  aquaJob : JobResult
  restJob : Nat → Nat → JobResult

/-- Embeds clear_file_ids (sync.py lines 50-53): pop the "file_ids" key.
The accompanying singer.write_state is emitted by the caller. -/
def clear_file_ids (st : TapState α) : TapState α :=
  { st with fileIds := .absent }

/-- Embeds clear_stateful_session (sync.py lines 56-59): set "version" to
the current integer wall clock.  The singer.write_state is emitted by the
caller. -/
def clear_stateful_session (now : Nat) (st : TapState α) : TapState α :=
  { st with version := some now }

/-- Embeds one iteration of the data-line loop of sync_file_ids (sync.py
lines 92-124).  `rks` carries the replication key together with the
start_date captured at entry (both present exactly when the stream has a
replication key).  Returns the messages written by this line. -/
def process_line [LinearOrder α] (env : Env α) (stream : StreamInfo)
    (rks : Option (String × α)) (fileId : String) (header : List String)
    (st : TapState α) (counter : Nat) (cells : List String) : RunResult α :=
  if cells = [] then .ok st [] counter
  else if header.length ≠ cells.length then
    let st1 := clear_file_ids st
    let st2 := clear_stateful_session env.now st1
    .err (.nonRectangular fileId cells.length header.length) st2 [.state st1, .state st2]
  else
    let record := env.transform (header.zip cells)
    match rks with
    | some (rk, start_date) =>
      match record.lookup rk with
      | none => .ok st [] counter
      | some b =>
        if env.isFalsy b ∨ b < start_date then .ok st [] counter
        else
          let st' := { st with bookmark := some b }
          .ok st' [.record stream.tapStreamId record, .state st'] (counter + 1)
    | none => .ok st [.record stream.tapStreamId record] (counter + 1)

/-- Embeds the data-line loop of sync_file_ids over the lines of one file
(sync.py lines 92-124). -/
def process_lines [LinearOrder α] (env : Env α) (stream : StreamInfo)
    (rks : Option (String × α)) (fileId : String) (header : List String) :
    TapState α → Nat → List (List String) → RunResult α
  | st, counter, [] => .ok st [] counter
  | st, counter, cells :: rest =>
    match process_line env stream rks fileId header st counter cells with
    | .err e st' m => .err e st' m
    | .ok st' m c' => (process_lines env stream rks fileId header st' c' rest).withMsgs m

/-- Embeds the file loop of sync_file_ids (sync.py lines 70-134): stream
each file, process its lines, persist the remaining file id list after
each file, and set "file_ids" to null once all are consumed.  A 404 while
streaming clears "file_ids", flushes state and raises
FileIdNotFoundException (lines 76-89). -/
def sync_file_ids_go [LinearOrder α] (env : Env α) (stream : StreamInfo)
    (rks : Option (String × α)) : TapState α → Nat → List String → RunResult α
  | st, counter, [] =>
    let st' := { st with fileIds := .null }
    .ok st' [.state st'] counter
  | st, counter, file_id :: file_ids =>
    match env.streamFile file_id with
    | .error code =>
      if code = 404 then
        let st1 := clear_file_ids st
        .err (.fileIdNotFound file_id) st1 [.state st1]
      else .err (.apiError code) st []
    | .ok [] => .err .stopIteration st []
    | .ok (headerLine :: lines) =>
      let header := parse_header_line headerLine stream.tapStreamId
      match process_lines env stream rks file_id header st counter lines with
      | .err e st' m => .err e st' m
      | .ok st' m c' =>
        let st2 := { st' with fileIds := .ids file_ids }
        (sync_file_ids_go env stream rks st2 c' file_ids).withMsgs (m ++ [.state st2])

/-- Embeds sync_file_ids (sync.py lines 62-135): capture start_date from
the stream's bookmark when a replication key exists (line 66 raises
KeyError when the entry is missing), then walk the files. -/
def sync_file_ids [LinearOrder α] (env : Env α) (stream : StreamInfo)
    (st : TapState α) (counter : Nat) (file_ids : List String) : RunResult α :=
  match stream.replicationKey with
  | some rk =>
    match st.bookmark with
    | none => .err .keyError st []
    | some d => sync_file_ids_go env stream (some (rk, d)) st counter file_ids
  | none => sync_file_ids_go env stream none st counter file_ids

/-- Error text of the ExportFailed raised when a window cannot shrink. -/
def exportTooLargeMsg : String :=
  "Export too large for smallest possible query window. Cannot subdivide any further."

/-- Embeds handle_aqua_timeout (sync.py lines 138-156) over Nat instants:
previous_window_end is the stored current_window_end, defaulting to the
current wall clock; equal to the bookmark means ExportFailed; otherwise
halve the window and persist current_window_end. -/
def handle_aqua_timeout (env : Env Nat) (stream : StreamInfo) (st : TapState Nat) :
    Except SyncError (TapState Nat × List (Msg Nat)) :=
  match stream.replicationKey with
  | none => .ok (st, [])
  | some _ =>
    let previous_window_end := st.currentWindowEnd.getD env.now
    match st.bookmark with
    | none => .error .keyError
    | some window_start =>
      if previous_window_end = window_start then .error (.exportFailed exportTooLargeMsg)
      else
        let half_day_range := (previous_window_end - window_start) / 2
        let current_window_end := previous_window_end - half_day_range
        let st' := { st with currentWindowEnd := some current_window_end }
        .ok (st', [.state st'])

/-- Outcome of one attempt of sync_aqua_stream: clean completion, an
exception, or a caught ExportTimedOut after which the source recurses
into sync_aqua_stream with the updated state (sync.py lines 173-179). -/
inductive AquaOutcome where
  | done (st : TapState Nat) (msgs : List (Msg Nat)) (counter : Nat)
  | err (e : SyncError) (st : TapState Nat) (msgs : List (Msg Nat))
  | retry (st : TapState Nat) (msgs : List (Msg Nat))
  deriving DecidableEq

/-- Prefix the message log of an attempt outcome. -/
def AquaOutcome.withMsgs (m : List (Msg Nat)) : AquaOutcome → AquaOutcome
  | .done st ms c => .done st (m ++ ms) c
  | .err e st ms => .err e st (m ++ ms)
  | .retry st ms => .retry st (m ++ ms)

/-- Embeds sync.py lines 169-172: pop "current_window_end" (the key is
removed whenever present); a truthy popped value becomes the stream's new
bookmark; then consume the window's files with sync_file_ids. -/
def aqua_consume (env : Env Nat) (stream : StreamInfo) (st : TapState Nat)
    (counter : Nat) (fids : List String) : AquaOutcome :=
  let st2 :=
    match st.currentWindowEnd with
    | some w =>
      let stp := { st with currentWindowEnd := none }
      if env.isFalsy w then stp else { stp with bookmark := some w }
    | none => st
  match sync_file_ids env stream st2 counter fids with
  | .ok st' m c => .done st' m c
  | .err e st' m => .err e st' m

/-- Embeds one attempt of sync_aqua_stream (sync.py lines 159-179): reuse
persisted file ids if any, otherwise submit a job and poll; a poll
timeout is handled by handle_aqua_timeout and signals a retry of the
whole attempt; then adopt current_window_end and consume the files. -/
def sync_aqua_stream (env : Env Nat) (stream : StreamInfo) (st : TapState Nat)
    (counter : Nat) : AquaOutcome :=
  match st.fileIds with
  | .ids (f :: fs) => aqua_consume env stream st counter (f :: fs)
  | _ =>
    match env.aquaJob with
    | .timeout =>
      match handle_aqua_timeout env stream st with
      | .error e => .err e st []
      | .ok (st', m) => .retry st' m
    | .failed msg => .err (.exportFailed msg) st []
    | .ok fids =>
      let st1 := { st with fileIds := .ids fids }
      (aqua_consume env stream st1 counter fids).withMsgs [.state st1]

/-- Constant MAX_EXPORT_DAYS of sync.py. -/
def MAX_EXPORT_DAYS : Nat := 30

/-- Embeds handle_rest_timeout (sync.py lines 182-198): for an incremental
stream halve window_length with integer division; reaching 0 raises
ExportFailed; otherwise persist the shrunk window_length and flush state.
For a stream with no replication key the source returns None. -/
def handle_rest_timeout (stream : StreamInfo) (st : TapState Nat) (current_window : Nat) :
    Except SyncError (Option Nat × TapState Nat × List (Msg Nat)) :=
  if stream.replicationKey.isSome then
    let new_window := current_window / 2
    if new_window = 0 then .error (.exportFailed exportTooLargeMsg)
    else
      let st' := { st with windowLength := some new_window }
      .ok (some new_window, st', [.state st'])
  else .ok (none, st, [])

/-- Embeds iterate_rest_query_window (sync.py lines 201-235) over Nat
instants.  The Python while loop and the tail recursion after a caught
ExportTimedOut are merged into one recursion: each step either finishes
(start_pen has reached sync_started), retries the same start with the
halved window after a timeout, or syncs the window's files, advances
start_pen to end_pen, resets window_length to the 30-day default, pops
"window_length", writes the bookmark to end_pen and flushes.  The
positivity argument `hw` records the call-site invariant of the source
(the initial window is positive and handle_rest_timeout never returns 0);
the dead branch for a non-positive halved window is unreachable. -/
def iterate_rest_query_window (env : Env Nat) (stream : StreamInfo) (sync_started : Nat)
    (st : TapState Nat) (counter : Nat) (start_pen : Nat) (window_length : Nat)
    (hw : 0 < window_length) : RunResult Nat :=
  if hlt : start_pen < sync_started then
    let end_pen := if sync_started < start_pen + window_length then sync_started
                   else start_pen + window_length
    match hj : env.restJob start_pen end_pen with
    | .timeout =>
      match hh : handle_rest_timeout stream st window_length with
      | .error e => .err e st []
      | .ok (some new_window, st', m) =>
        if hnw : 0 < new_window then
          (iterate_rest_query_window env stream sync_started st' counter start_pen
            new_window hnw).withMsgs m
        else .err .keyError st' m
      | .ok (none, st', m) => .err .keyError st' m
    | .failed msg => .err (.exportFailed msg) st []
    | .ok fids =>
      match sync_file_ids env stream st counter fids with
      | .err e st' m => .err e st' m
      | .ok st' m c' =>
        let st2 := { st' with windowLength := none, bookmark := some end_pen }
        (iterate_rest_query_window env stream sync_started st2 c' end_pen
          (MAX_EXPORT_DAYS * 86400) (by decide)).withMsgs (m ++ [.state st2])
  else .ok st [] counter
termination_by (sync_started - start_pen, window_length)
decreasing_by
  · have hnw2 : new_window = window_length / 2 := by
      simp only [handle_rest_timeout] at hh
      split at hh
      · split at hh
        · simp at hh
        · simp only [Except.ok.injEq, Prod.mk.injEq, Option.some.injEq] at hh
          obtain ⟨h1, -⟩ := hh
          omega
      · simp at hh
    apply Prod.Lex.right
    omega
  · apply Prod.Lex.left
    split <;> omega

/-- An HTTP response as consulted by the transport layer: the status code,
the first message of the JSON "Errors" array (resp.json().get("Errors",
[{"Message": ""}])[0]["Message"]; absent when the body has no such array),
and the "Success" flag of a REST export response. -/
structure HttpResp where
  status : Nat
  firstErrorMessage : Option String
  success : Option Bool
  deriving DecidableEq

/-- The substring test of client.py line 246: "noSuchDataSource" occurs in
the first error message, with the source's default of "" when the body
has no "Errors" array. -/
def noSuchDataSourceResp (resp : HttpResp) : Bool :=
  hasSub "noSuchDataSource".data (resp.firstErrorMessage.getD "").data

/-- Exceptions of the transport layer: RateLimitException (429),
RetryableException (500/502/503/504), requests' HTTPError from
raise_for_status, ApiException from Client._request, and a KeyError for a
missing JSON field. -/
inductive TransportError where
  | rateLimited
  | retryable (status : Nat)
  | httpError (status : Nat)
  | apiException (status : Nat)
  | keyError
  deriving DecidableEq

/-- Embeds Client.check_for_error (client.py lines 234-251): outside the
url-check path, a 400 whose first error message contains
"noSuchDataSource" returns silently; any other non-2xx raises HTTPError
via resp.raise_for_status(). -/
def check_for_error (resp : HttpResp) (url_check : Bool) : Except TransportError Unit :=
  if ¬url_check ∧ resp.status = 400 ∧ noSuchDataSourceResp resp then .ok ()
  else if ¬url_check ∧ 400 ≤ resp.status then .error (.httpError resp.status)
  else .ok ()

/-- Embeds Client._retryable_request (client.py lines 214-232) given the
wire response: 429 raises RateLimitException, the retryable 5xx statuses
raise RetryableException (both after the backoff budget), then
check_for_error classifies the rest. -/
def retryable_request (resp : HttpResp) (url_check : Bool) : Except TransportError HttpResp :=
  if resp.status = 429 then .error .rateLimited
  else if resp.status = 500 ∨ resp.status = 502 ∨ resp.status = 503 ∨ resp.status = 504 then
    .error (.retryable resp.status)
  else
    match check_for_error resp url_check with
    | .error e => .error e
    | .ok _ => .ok resp

/-- Embeds Client._request (client.py lines 253-260): run the retryable
request, then raise ApiException for any response whose status is not
200. -/
def client_request (resp : HttpResp) : Except TransportError HttpResp :=
  match retryable_request resp false with
  | .error e => .error e
  | .ok r => if r.status ≠ 200 then .error (.apiException r.status) else .ok r

/-- Embeds Rest.stream_status (apis.py lines 284-298) given the wire
response of the probe export POST: "available" when resp["Success"] is
truthy, else "unavailable"; a missing "Success" key is a KeyError. -/
def rest_stream_status (resp : HttpResp) : Except TransportError String :=
  match client_request resp with
  | .error e => .error e
  | .ok r =>
    match r.success with
    | none => .error .keyError
    | some true => .ok "available"
    | some false => .ok "unavailable"

/-- Embeds the availability-probe section of discover_stream (discover.py
lines 201-216) for the REST driver: call Rest.stream_status on the probe
response; "unavailable" excludes the stream (the source returns None);
any exception propagates, because the try/except of discover_stream
wraps only get_field_dict (lines 149-152), not this section.  The result
is the probe's availability classification, or none for an excluded
stream. -/
def discover_stream_probe (probeResp : HttpResp) : Except TransportError (Option String) :=
  match rest_stream_status probeResp with
  | .error e => .error e
  | .ok status => if status = "unavailable" then .ok none else .ok (some status)

/-- Embeds the field-describe step of discover_stream (discover.py lines
149-155) at the transport level: get_field_dict performs a rest_request;
an ApiException is caught and the stream excluded (None), other
exceptions propagate. -/
def discover_stream_describe (resp : HttpResp) : Except TransportError (Option Unit) :=
  match client_request resp with
  | .error (.apiException _) => .ok none
  | .error e => .error e
  | .ok _ => .ok (some ())

/-- Declared field properties as collected by get_field_dict (discover.py
lines 113-117): the mapped type (None for an unmapped raw type), the
required flag, and the supported flag (false exactly when the type is
unmapped). -/
structure FieldProps where
  type : Option String
  required : Bool
  supported : Bool
  deriving DecidableEq

/-- A synthesised JSON-schema "type" entry: either the bare declared type
or the two-element nullable form [type, "null"]. -/
inductive JType where
  | plain (t : Option String)
  | withNull (t : Option String)
  deriving DecidableEq

/-- Embeds the per-field schema synthesis of discover_stream (discover.py
lines 183-190): date and datetime become string with format date-time;
then the type becomes the nullable two-element form exactly when the
field is supported.  Returns the "type" entry and the optional "format"
entry. -/
def discover_field_schema (props : FieldProps) : JType × Option String :=
  let base : Option String × Option String :=
    if props.type = some "date" ∨ props.type = some "datetime"
    then (some "string", some "date-time")
    else (props.type, none)
  (if props.supported then .withNull base.1 else .plain base.1, base.2)

/-- Constant SYNTAX_ERROR of apis.py lines 7. -/
def SYNTAX_ERROR : String := "There is a syntax error in one of the queries in the AQuA input"

/-- Constant NO_DELETED_SUPPORT of apis.py lines 8-9. -/
def NO_DELETED_SUPPORT : String :=
  "Objects included in the queries do not support the querying of deleted records. Remove Deleted section in the JSON request and retry the request"

/-- Embeds the classification of Aqua.stream_status (apis.py lines
183-191) given the "message" field of the probe response (none when the
field is absent): SYNTAX_ERROR means "unavailable", NO_DELETED_SUPPORT
means "available", any other message raises Exception, and no message
means "available_with_deleted". -/
def aqua_stream_status (stream_name : String) (message : Option String) :
    Except String String :=
  match message with
  | some m =>
    if m = SYNTAX_ERROR then .ok "unavailable"
    else if m = NO_DELETED_SUPPORT then .ok "available"
    else .error ("Error probing " ++ stream_name ++ ": " ++ m)
  | none => .ok "available_with_deleted"

/-- Message log of a run result. -/
def RunResult.msgs : RunResult α → List (Msg α)
  | .ok _ ms _ => ms
  | .err _ _ ms => ms

/-- Final in-memory state of a run result. -/
def RunResult.finalState : RunResult α → TapState α
  | .ok st _ _ => st
  | .err _ st _ => st

/-- Message log of an AQuA attempt outcome. -/
def AquaOutcome.msgs : AquaOutcome → List (Msg Nat)
  | .done _ ms _ => ms
  | .err _ _ ms => ms
  | .retry _ ms => ms

/-- A small concrete environment over Nat instants used by witnesses: the
streamed files hold only a header line, jobs time out, and the transform
is constant. -/
def envW : Env Nat where
  streamFile := fun _ => .ok [["Account.Id", "Account.UpdatedDate"]]
  transform := fun _ => []
  isFalsy := fun v => v == 0
  now := 1700000000
  aquaJob := .timeout
  restJob := fun _ _ => .timeout

/-- An incremental stream on UpdatedDate used by concrete runs. -/
def streamW : StreamInfo where
  tapStreamId := "Account"
  replicationKey := some "UpdatedDate"

/-- A state with a bookmark and no transient keys. -/
def stW : TapState Nat where
  bookmark := some 5
  fileIds := .absent
  currentWindowEnd := none
  version := some 1
  windowLength := none

/-- Concrete environment for the equal-to-bookmark record: one file whose
single data row coerces to UpdatedDate value 5. -/
def envC2 : Env Nat where
  streamFile := fun _ =>
    .ok [["Account.Id", "Account.UpdatedDate"], ["A", "2024"]]
  transform := fun _ => [("Id", 1), ("UpdatedDate", 5)]
  isFalsy := fun v => v == 0
  now := 1700000000
  aquaJob := .failed "unused"
  restJob := fun _ _ => .failed "unused"

/-- Concrete environment for the AQuA window-end adoption run: the poll
yields two files, each streaming only a header line (an empty window). -/
def envC3 : Env Nat where
  streamFile := fun _ => .ok [["Account.Id", "Account.UpdatedDate"]]
  transform := fun _ => []
  isFalsy := fun v => v == 0
  now := 1700000000
  aquaJob := .ok ["f1", "f2"]
  restJob := fun _ _ => .failed "unused"

/-- Starting state of the AQuA adoption run: a bookmark of 1 and a
current_window_end of 5 left by a prior halving. -/
def stC3 : TapState Nat where
  bookmark := some 1
  fileIds := .absent
  currentWindowEnd := some 5
  version := some 1
  windowLength := none

/-- The mid-run state the AQuA adoption run persists after consuming only
the first of its two files: the bookmark already equals the adopted
window end 5 while file "f2" is still unconsumed. -/
def stC3mid : TapState Nat where
  bookmark := some 5
  fileIds := .ids ["f2"]
  currentWindowEnd := none
  version := some 1
  windowLength := none

/-- The discovery availability-probe response carrying the
noSuchDataSource marker: HTTP 400 with the marker in the first message of
the Errors array. -/
def respNoSuchDataSource : HttpResp where
  status := 400
  firstErrorMessage := some "Error - noSuchDataSource : ObscureX is not a valid data source"
  success := none

/-- Invariant used for bookmark monotonicity: the stream's bookmark entry
holds a value that is at least d. -/
def BookmarkAtLeast [LE α] (d : α) (st : TapState α) : Prop :=
  ∃ b, st.bookmark = some b ∧ d ≤ b

theorem process_line_ok_bookmark [LinearOrder α] (env : Env α) (stream : StreamInfo)
    (rks : Option (String × α)) (fid : String) (header : List String)
    (st : TapState α) (c : Nat) (cells : List String) (d0 : α)
    (hrks : ∀ rk d, rks = some (rk, d) → d0 ≤ d)
    (hst : BookmarkAtLeast d0 st) :
    ∀ st' m c', process_line env stream rks fid header st c cells = .ok st' m c' →
      BookmarkAtLeast d0 st' := by
  intro st' m c' h
  rcases rks with - | ⟨rk, d⟩
  · simp only [process_line] at h
    split at h
    · cases h; exact hst
    · split at h
      · cases h
      · cases h; exact hst
  · simp only [process_line] at h
    split at h
    · cases h; exact hst
    · split at h
      · cases h
      · split at h
        · cases h; exact hst
        · split at h
          · cases h; exact hst
          · rename_i b hlook hcond
            cases h
            refine ⟨b, rfl, le_trans (hrks rk d rfl) ?_⟩
            exact le_of_not_lt fun hbd => hcond (Or.inr hbd)

theorem process_lines_ok_bookmark [LinearOrder α] (env : Env α) (stream : StreamInfo)
    (rks : Option (String × α)) (fid : String) (header : List String) (d0 : α)
    (hrks : ∀ rk d, rks = some (rk, d) → d0 ≤ d) :
    ∀ (lines : List (List String)) (st : TapState α) (c : Nat) st' m c',
      BookmarkAtLeast d0 st →
      process_lines env stream rks fid header st c lines = .ok st' m c' →
      BookmarkAtLeast d0 st' := by
  intro lines
  induction lines with
  | nil =>
    intro st c st' m c' hst h
    cases h
    exact hst
  | cons cells rest ih =>
    intro st c st' m c' hst h
    simp only [process_lines] at h
    split at h
    · cases h
    · rename_i st1 m1 c1 hpl
      cases hrest : process_lines env stream rks fid header st1 c1 rest with
      | err e st2 m2 => rw [hrest] at h; simp [RunResult.withMsgs] at h
      | ok st2 m2 c2 =>
        rw [hrest] at h
        simp only [RunResult.withMsgs, RunResult.ok.injEq] at h
        obtain ⟨rfl, -, -⟩ := h
        exact ih st1 c1 st2 m2 c2
          (process_line_ok_bookmark env stream rks fid header st c cells d0 hrks hst
            st1 m1 c1 hpl) hrest

theorem sync_file_ids_go_ok_bookmark [LinearOrder α] (env : Env α) (stream : StreamInfo)
    (rks : Option (String × α)) (d0 : α)
    (hrks : ∀ rk d, rks = some (rk, d) → d0 ≤ d) :
    ∀ (fids : List String) (st : TapState α) (c : Nat) st' m c',
      BookmarkAtLeast d0 st →
      sync_file_ids_go env stream rks st c fids = .ok st' m c' →
      BookmarkAtLeast d0 st' := by
  intro fids
  induction fids with
  | nil =>
    intro st c st' m c' hst h
    cases h
    obtain ⟨b, hb, hle⟩ := hst
    exact ⟨b, hb, hle⟩
  | cons fid rest ih =>
    intro st c st' m c' hst h
    simp only [sync_file_ids_go] at h
    split at h
    · split at h
      · cases h
      · cases h
    · cases h
    · rename_i headerLine lines hsf
      split at h
      · cases h
      · rename_i st1 m1 c1 hpl
        cases hrest : sync_file_ids_go env stream rks
            { st1 with fileIds := .ids rest } c1 rest with
        | err e st2 m2 => rw [hrest] at h; simp [RunResult.withMsgs] at h
        | ok st2 m2 c2 =>
          rw [hrest] at h
          simp only [RunResult.withMsgs, RunResult.ok.injEq] at h
          obtain ⟨rfl, -, -⟩ := h
          have hst1 : BookmarkAtLeast d0 st1 :=
            process_lines_ok_bookmark env stream rks fid
              (parse_header_line headerLine stream.tapStreamId) d0 hrks lines st c
              st1 m1 c1 hst hpl
          exact ih { st1 with fileIds := .ids rest } c1 st2 m2 c2
            (by obtain ⟨b, hb, hle⟩ := hst1; exact ⟨b, hb, hle⟩) hrest

theorem sync_file_ids_ok_bookmark [LinearOrder α] (env : Env α) (stream : StreamInfo)
    (st : TapState α) (c : Nat) (fids : List String) (d : α)
    (hb : st.bookmark = some d) :
    ∀ st' m c', sync_file_ids env stream st c fids = .ok st' m c' →
      BookmarkAtLeast d st' := by
  intro st' m c' h
  simp only [sync_file_ids] at h
  cases hrk : stream.replicationKey with
  | none =>
    rw [hrk] at h
    refine sync_file_ids_go_ok_bookmark env stream none d ?_ fids st c st' m c'
      ⟨d, hb, le_refl d⟩ h
    intro rk d' h'
    simp at h'
  | some rk =>
    rw [hrk, hb] at h
    refine sync_file_ids_go_ok_bookmark env stream (some (rk, d)) d ?_ fids st c st' m c'
      ⟨d, hb, le_refl d⟩ h
    intro rk' d' h'
    simp only [Option.some.injEq, Prod.mk.injEq] at h'
    exact h'.2 ▸ le_refl d

theorem walk_base (env : Env Nat) (stream : StreamInfo) (sync_started : Nat)
    (st : TapState Nat) (counter start_pen window_length : Nat) (hw : 0 < window_length)
    (h : ¬ start_pen < sync_started) :
    iterate_rest_query_window env stream sync_started st counter start_pen window_length hw
      = .ok st [] counter := by
  rw [iterate_rest_query_window]
  simp only [dif_neg h]

theorem walk_timeout_halve (env : Env Nat) (stream : StreamInfo) (sync_started : Nat)
    (st : TapState Nat) (counter start_pen window_length : Nat) (hw : 0 < window_length)
    (end_pen : Nat)
    (he : end_pen = if sync_started < start_pen + window_length then sync_started
                    else start_pen + window_length)
    (h : start_pen < sync_started)
    (hj : env.restJob start_pen end_pen = .timeout)
    (nw : Nat) (st2 : TapState Nat) (m : List (Msg Nat))
    (hh : handle_rest_timeout stream st window_length = .ok (some nw, st2, m))
    (hnw : 0 < nw) :
    iterate_rest_query_window env stream sync_started st counter start_pen window_length hw
      = (iterate_rest_query_window env stream sync_started st2 counter start_pen nw hnw).withMsgs m := by
  subst he
  rw [iterate_rest_query_window]
  simp only [dif_pos h]
  split
  · split
    · rename_i e heq
      rw [hh] at heq
      simp at heq
    · rename_i nw2 st3 m3 heq
      rw [hh] at heq
      simp only [Except.ok.injEq, Prod.mk.injEq, Option.some.injEq] at heq
      obtain ⟨h1, h2, h3⟩ := heq
      subst h1
      subst h2
      subst h3
      simp only [dif_pos hnw]
    · rename_i st3 m3 heq
      rw [hh] at heq
      simp at heq
  · rename_i msg heq
    rw [hj] at heq
    simp at heq
  · rename_i fids heq
    rw [hj] at heq
    simp at heq

theorem walk_timeout_fail (env : Env Nat) (stream : StreamInfo) (sync_started : Nat)
    (st : TapState Nat) (counter start_pen window_length : Nat) (hw : 0 < window_length)
    (end_pen : Nat)
    (he : end_pen = if sync_started < start_pen + window_length then sync_started
                    else start_pen + window_length)
    (h : start_pen < sync_started)
    (hj : env.restJob start_pen end_pen = .timeout)
    (e : SyncError)
    (hh : handle_rest_timeout stream st window_length = .error e) :
    iterate_rest_query_window env stream sync_started st counter start_pen window_length hw
      = .err e st [] := by
  subst he
  rw [iterate_rest_query_window]
  simp only [dif_pos h]
  split
  · split
    · rename_i e2 heq
      rw [hh] at heq
      simp only [Except.error.injEq] at heq
      subst heq
      rfl
    · rename_i nw2 st3 m3 heq
      rw [hh] at heq
      simp at heq
    · rename_i st3 m3 heq
      rw [hh] at heq
      simp at heq
  · rename_i msg heq
    rw [hj] at heq
    simp at heq
  · rename_i fids heq
    rw [hj] at heq
    simp at heq

theorem walk_timeout_dead (env : Env Nat) (stream : StreamInfo) (sync_started : Nat)
    (st : TapState Nat) (counter start_pen window_length : Nat) (hw : 0 < window_length)
    (end_pen : Nat)
    (he : end_pen = if sync_started < start_pen + window_length then sync_started
                    else start_pen + window_length)
    (h : start_pen < sync_started)
    (hj : env.restJob start_pen end_pen = .timeout)
    (nw : Nat) (st2 : TapState Nat) (m : List (Msg Nat))
    (hh : handle_rest_timeout stream st window_length = .ok (some nw, st2, m))
    (hnw : ¬ 0 < nw) :
    iterate_rest_query_window env stream sync_started st counter start_pen window_length hw
      = .err .keyError st2 m := by
  subst he
  rw [iterate_rest_query_window]
  simp only [dif_pos h]
  split
  · split
    · rename_i e heq
      rw [hh] at heq
      simp at heq
    · rename_i nw2 st3 m3 heq
      rw [hh] at heq
      simp only [Except.ok.injEq, Prod.mk.injEq, Option.some.injEq] at heq
      obtain ⟨h1, h2, h3⟩ := heq
      subst h1
      subst h2
      subst h3
      simp only [dif_neg hnw]
    · rename_i st3 m3 heq
      rw [hh] at heq
      simp at heq
  · rename_i msg heq
    rw [hj] at heq
    simp at heq
  · rename_i fids heq
    rw [hj] at heq
    simp at heq

theorem walk_timeout_none (env : Env Nat) (stream : StreamInfo) (sync_started : Nat)
    (st : TapState Nat) (counter start_pen window_length : Nat) (hw : 0 < window_length)
    (end_pen : Nat)
    (he : end_pen = if sync_started < start_pen + window_length then sync_started
                    else start_pen + window_length)
    (h : start_pen < sync_started)
    (hj : env.restJob start_pen end_pen = .timeout)
    (st2 : TapState Nat) (m : List (Msg Nat))
    (hh : handle_rest_timeout stream st window_length = .ok (none, st2, m)) :
    iterate_rest_query_window env stream sync_started st counter start_pen window_length hw
      = .err .keyError st2 m := by
  subst he
  rw [iterate_rest_query_window]
  simp only [dif_pos h]
  split
  · split
    · rename_i e heq
      rw [hh] at heq
      simp at heq
    · rename_i nw2 st3 m3 heq
      rw [hh] at heq
      simp at heq
    · rename_i st3 m3 heq
      rw [hh] at heq
      simp only [Except.ok.injEq, Prod.mk.injEq] at heq
      obtain ⟨-, h3, h4⟩ := heq
      subst h3
      subst h4
      rfl
  · rename_i msg heq
    rw [hj] at heq
    simp at heq
  · rename_i fids heq
    rw [hj] at heq
    simp at heq

theorem walk_failed (env : Env Nat) (stream : StreamInfo) (sync_started : Nat)
    (st : TapState Nat) (counter start_pen window_length : Nat) (hw : 0 < window_length)
    (end_pen : Nat)
    (he : end_pen = if sync_started < start_pen + window_length then sync_started
                    else start_pen + window_length)
    (h : start_pen < sync_started)
    (msg : String)
    (hj : env.restJob start_pen end_pen = .failed msg) :
    iterate_rest_query_window env stream sync_started st counter start_pen window_length hw
      = .err (.exportFailed msg) st [] := by
  subst he
  rw [iterate_rest_query_window]
  simp only [dif_pos h]
  split
  · rename_i heq
    rw [hj] at heq
    simp at heq
  · rename_i msg2 heq
    rw [hj] at heq
    simp only [JobResult.failed.injEq] at heq
    subst heq
    rfl
  · rename_i fids heq
    rw [hj] at heq
    simp at heq

theorem walk_sync_err (env : Env Nat) (stream : StreamInfo) (sync_started : Nat)
    (st : TapState Nat) (counter start_pen window_length : Nat) (hw : 0 < window_length)
    (end_pen : Nat)
    (he : end_pen = if sync_started < start_pen + window_length then sync_started
                    else start_pen + window_length)
    (h : start_pen < sync_started)
    (fids : List String)
    (hj : env.restJob start_pen end_pen = .ok fids)
    (e : SyncError) (st2 : TapState Nat) (m : List (Msg Nat))
    (hs : sync_file_ids env stream st counter fids = .err e st2 m) :
    iterate_rest_query_window env stream sync_started st counter start_pen window_length hw
      = .err e st2 m := by
  subst he
  rw [iterate_rest_query_window]
  simp only [dif_pos h]
  split
  · rename_i heq
    rw [hj] at heq
    simp at heq
  · rename_i msg heq
    rw [hj] at heq
    simp at heq
  · rename_i fids2 heq
    rw [hj] at heq
    simp only [JobResult.ok.injEq] at heq
    subst heq
    rw [hs]

theorem walk_success (env : Env Nat) (stream : StreamInfo) (sync_started : Nat)
    (st : TapState Nat) (counter start_pen window_length : Nat) (hw : 0 < window_length)
    (end_pen : Nat)
    (he : end_pen = if sync_started < start_pen + window_length then sync_started
                    else start_pen + window_length)
    (h : start_pen < sync_started)
    (fids : List String)
    (hj : env.restJob start_pen end_pen = .ok fids)
    (st2 : TapState Nat) (m : List (Msg Nat)) (c2 : Nat)
    (hs : sync_file_ids env stream st counter fids = .ok st2 m c2) :
    iterate_rest_query_window env stream sync_started st counter start_pen window_length hw
      = (iterate_rest_query_window env stream sync_started
          { st2 with windowLength := none, bookmark := some end_pen } c2 end_pen
          (MAX_EXPORT_DAYS * 86400) (by decide)).withMsgs
          (m ++ [.state { st2 with windowLength := none, bookmark := some end_pen }]) := by
  subst he
  rw [iterate_rest_query_window]
  simp only [dif_pos h]
  split
  · rename_i heq
    rw [hj] at heq
    simp at heq
  · rename_i msg heq
    rw [hj] at heq
    simp at heq
  · rename_i fids2 heq
    rw [hj] at heq
    simp only [JobResult.ok.injEq] at heq
    subst heq
    rw [hs]

theorem iterate_walk_ok_bookmark (env : Env Nat) (stream : StreamInfo) (sync_started : Nat)
    (st : TapState Nat) (counter start_pen window_length : Nat) (hw : 0 < window_length) :
    ∀ b0, b0 ≤ start_pen → BookmarkAtLeast b0 st →
      ∀ st' m c',
        iterate_rest_query_window env stream sync_started st counter start_pen window_length hw
          = .ok st' m c' → BookmarkAtLeast b0 st' := by
  induction st, counter, start_pen, window_length, hw
    using iterate_rest_query_window.induct env stream sync_started with
  | case1 st counter start_pen window_length hw h1 ep hj e hh =>
    intro b0 hb0 hst st' m c' hrun
    rw [walk_timeout_fail env stream sync_started st counter start_pen window_length hw
      ep rfl h1 hj e hh] at hrun
    cases hrun
  | case2 st counter start_pen window_length hw h1 ep hj nw st2 m hh hnw ih =>
    intro b0 hb0 hst st' m' c' hrun
    rw [walk_timeout_halve env stream sync_started st counter start_pen window_length hw
      ep rfl h1 hj nw st2 m hh hnw] at hrun
    cases hr2 : iterate_rest_query_window env stream sync_started st2 counter start_pen nw hnw with
    | err e2 st3 m3 => rw [hr2] at hrun; simp [RunResult.withMsgs] at hrun
    | ok st3 m3 c3 =>
      rw [hr2] at hrun
      simp only [RunResult.withMsgs, RunResult.ok.injEq] at hrun
      obtain ⟨rfl, -, -⟩ := hrun
      have hbm : st2.bookmark = st.bookmark := by
        simp only [handle_rest_timeout] at hh
        split at hh
        · split at hh
          · simp at hh
          · simp only [Except.ok.injEq, Prod.mk.injEq, Option.some.injEq] at hh
            obtain ⟨-, h2, -⟩ := hh
            rw [← h2]
        · simp at hh
      obtain ⟨b, hb, hle⟩ := hst
      exact ih b0 hb0 ⟨b, hbm ▸ hb, hle⟩ st3 m3 c3 hr2
  | case3 st counter start_pen window_length hw h1 ep hj nw st2 m hh hnw =>
    intro b0 hb0 hst st' m' c' hrun
    rw [walk_timeout_dead env stream sync_started st counter start_pen window_length hw
      ep rfl h1 hj nw st2 m hh hnw] at hrun
    cases hrun
  | case4 st counter start_pen window_length hw h1 ep hj st2 m hh =>
    intro b0 hb0 hst st' m' c' hrun
    rw [walk_timeout_none env stream sync_started st counter start_pen window_length hw
      ep rfl h1 hj st2 m hh] at hrun
    cases hrun
  | case5 st counter start_pen window_length hw h1 ep msg hj =>
    intro b0 hb0 hst st' m' c' hrun
    rw [walk_failed env stream sync_started st counter start_pen window_length hw
      ep rfl h1 msg hj] at hrun
    cases hrun
  | case6 st counter start_pen window_length hw h1 ep fids hj e st2 m hs =>
    intro b0 hb0 hst st' m' c' hrun
    rw [walk_sync_err env stream sync_started st counter start_pen window_length hw
      ep rfl h1 fids hj e st2 m hs] at hrun
    cases hrun
  | case7 st counter start_pen window_length hw h1 ep fids hj st2 m c2 hs st2l ih =>
    intro b0 hb0 hst st' m' c' hrun
    rw [walk_success env stream sync_started st counter start_pen window_length hw
      ep rfl h1 fids hj st2 m c2 hs] at hrun
    have hse : start_pen ≤ ep := by
      have h2 : start_pen ≤ (if sync_started < start_pen + window_length then sync_started
          else start_pen + window_length) := by split <;> omega
      exact h2
    cases hr2 : iterate_rest_query_window env stream sync_started
        { st2 with windowLength := none, bookmark := some ep } c2 ep
        (MAX_EXPORT_DAYS * 86400) (by decide) with
    | err e2 st3 m3 => rw [hr2] at hrun; simp [RunResult.withMsgs] at hrun
    | ok st3 m3 c3 =>
      rw [hr2] at hrun
      simp only [RunResult.withMsgs, RunResult.ok.injEq] at hrun
      obtain ⟨rfl, -, -⟩ := hrun
      exact ih b0 (le_trans hb0 hse) ⟨ep, rfl, le_trans hb0 hse⟩ st3 m3 c3 hr2
  | case8 st counter start_pen window_length hw h1 =>
    intro b0 hb0 hst st' m' c' hrun
    rw [walk_base env stream sync_started st counter start_pen window_length hw h1] at hrun
    cases hrun
    exact hst

/-- C1: for every successful run and every incremental stream, the
persisted bookmark after the run is at least the bookmark before it,
under both code paths that write the bookmark: the per-record advancement
of sync_file_ids (the guard of sync.py line 114 drops every value below
the start_date captured at entry, so each write at line 119 is at least
it), and the end-of-window advancement of the REST window walk (each
write at sync.py line 226 stores a window end that never precedes the
initial start_pen, which the caller parses from the bookmark). -/
theorem C1_bookmark_monotone :
    (∀ (α : Type) [inst : LinearOrder α] (env : Env α) (stream : StreamInfo)
        (st : TapState α) (c : Nat) (fids : List String) (d : α),
        st.bookmark = some d →
        ∀ st' m c', sync_file_ids env stream st c fids = .ok st' m c' →
          ∃ b, st'.bookmark = some b ∧ d ≤ b) ∧
    (∀ (env : Env Nat) (stream : StreamInfo) (sync_started : Nat) (st : TapState Nat)
        (counter start_pen window_length : Nat) (hw : 0 < window_length),
        st.bookmark = some start_pen →
        ∀ st' m c',
          iterate_rest_query_window env stream sync_started st counter start_pen
              window_length hw = .ok st' m c' →
          ∃ b, st'.bookmark = some b ∧ start_pen ≤ b) := by
  constructor
  · intro α inst env stream st c fids d hb st' m c' h
    exact sync_file_ids_ok_bookmark env stream st c fids d hb st' m c' h
  · intro env stream sync_started st counter start_pen window_length hw hb st' m c' h
    exact iterate_walk_ok_bookmark env stream sync_started st counter start_pen
      window_length hw start_pen (le_refl _) ⟨start_pen, hb, le_refl _⟩ st' m c' h

/-- Witness for C1: both conjuncts applied at concrete inputs (the run
over an empty file id list, and a walk whose start has already reached
sync_started). -/
theorem C1_bookmark_monotone_witness :
    (∃ b, ({ stW with fileIds := FileIds.null } : TapState Nat).bookmark = some b ∧ 5 ≤ b) ∧
    (∃ b, stW.bookmark = some b ∧ 5 ≤ b) := by
  constructor
  · exact C1_bookmark_monotone.1 Nat envW streamW stW 0 [] 5 rfl
      { stW with fileIds := FileIds.null }
      [.state { stW with fileIds := FileIds.null }] 0 rfl
  · exact C1_bookmark_monotone.2 envW streamW 5 stW 0 5 60 (by decide) rfl stW [] 0
      (walk_base envW streamW 5 stW 0 5 60 (by decide) (by decide))

/-- C5: in REST mode, for an incremental stream, a polling timeout halves
window_length by integer division and persists the shrunk value before
retrying the same window start, and the retry cannot loop forever: the
walk is a total function (defined by well-founded recursion on the pair
of remaining time and window length), and when the halved window_length
reaches 0 the sync fails with the export-too-large ExportFailed instead
of retrying. -/
theorem C5_rest_timeout_halving :
    (∀ (stream : StreamInfo) (st : TapState Nat) (current_window : Nat),
        stream.replicationKey.isSome = true →
        (current_window / 2 = 0 →
          handle_rest_timeout stream st current_window =
            .error (.exportFailed exportTooLargeMsg)) ∧
        (current_window / 2 ≠ 0 →
          handle_rest_timeout stream st current_window =
            .ok (some (current_window / 2),
                 { st with windowLength := some (current_window / 2) },
                 [.state { st with windowLength := some (current_window / 2) }]))) ∧
    (∀ (env : Env Nat) (stream : StreamInfo) (sync_started : Nat) (st : TapState Nat)
        (counter start_pen window_length : Nat) (hw : 0 < window_length) (end_pen : Nat),
        stream.replicationKey.isSome = true →
        end_pen = (if sync_started < start_pen + window_length then sync_started
                   else start_pen + window_length) →
        start_pen < sync_started →
        env.restJob start_pen end_pen = .timeout →
        (window_length / 2 = 0 →
          iterate_rest_query_window env stream sync_started st counter start_pen
              window_length hw = .err (.exportFailed exportTooLargeMsg) st []) ∧
        (∀ hnw : 0 < window_length / 2,
          iterate_rest_query_window env stream sync_started st counter start_pen
              window_length hw =
            (iterate_rest_query_window env stream sync_started
                { st with windowLength := some (window_length / 2) } counter start_pen
                (window_length / 2) hnw).withMsgs
              [.state { st with windowLength := some (window_length / 2) }])) := by
  constructor
  · intro stream st current_window hrk
    constructor
    · intro h0
      simp only [handle_rest_timeout, hrk, if_true, h0]
    · intro h0
      simp only [handle_rest_timeout, hrk, if_true]
      rw [if_neg h0]
  · intro env stream sync_started st counter start_pen window_length hw end_pen hrk he h1 hj
    constructor
    · intro h0
      refine walk_timeout_fail env stream sync_started st counter start_pen window_length hw
        end_pen he h1 hj _ ?_
      simp only [handle_rest_timeout, hrk, if_true, h0]
    · intro hnw
      refine walk_timeout_halve env stream sync_started st counter start_pen window_length hw
        end_pen he h1 hj (window_length / 2)
        { st with windowLength := some (window_length / 2) }
        [.state { st with windowLength := some (window_length / 2) }] ?_ hnw
      simp only [handle_rest_timeout, hrk, if_true]
      rw [if_neg (Nat.pos_iff_ne_zero.mp hnw)]

/-- Witness for C5: the halving equations applied at a window of 1 second
(which halves to 0 and fails) and the walk equation at that input. -/
theorem C5_rest_timeout_halving_witness :
    (handle_rest_timeout streamW stW 1 = .error (.exportFailed exportTooLargeMsg)) ∧
    (iterate_rest_query_window envW streamW 100 stW 0 5 1 (by decide)
      = .err (.exportFailed exportTooLargeMsg) stW []) := by
  constructor
  · exact (C5_rest_timeout_halving.1 streamW stW 1 rfl).1 rfl
  · exact (C5_rest_timeout_halving.2 envW streamW 100 stW 0 5 1 (by decide) 6 rfl rfl
      (by decide) rfl).1 rfl

/-- C6: when streaming a file id raises an HTTP 404 at any point of
sync_file_ids, the file_ids entry is removed from the stream's state, a
STATE message carrying that removal is flushed, the bookmark entry is
left exactly as it was, and the sync of the object aborts with the
FileIdNotFoundException; the state quantified here is the in-memory state
at the moment of the failing file, so the statement covers a 404 in the
middle of a multi-file window. -/
theorem C6_file_deleted_mid_sync :
    ∀ (α : Type) [inst : LinearOrder α] (env : Env α) (stream : StreamInfo)
      (rks : Option (String × α)) (st : TapState α) (c : Nat) (fid : String)
      (rest : List String),
      env.streamFile fid = .error 404 →
      sync_file_ids_go env stream rks st c (fid :: rest) =
        .err (.fileIdNotFound fid) (clear_file_ids st) [.state (clear_file_ids st)] ∧
      (clear_file_ids st).bookmark = st.bookmark ∧
      (clear_file_ids st).fileIds = .absent := by
  intro α inst env stream rks st c fid rest h404
  refine ⟨?_, rfl, rfl⟩
  simp only [sync_file_ids_go, h404]
  rfl

/-- Witness for C6 at a concrete 404 environment. -/
theorem C6_file_deleted_mid_sync_witness :
    sync_file_ids_go
        { envW with streamFile := fun _ => .error 404 } streamW
        (some ("UpdatedDate", 5)) stW 0 ["f1", "f2"] =
      .err (.fileIdNotFound "f1") (clear_file_ids stW) [.state (clear_file_ids stW)] ∧
    (clear_file_ids stW).bookmark = stW.bookmark ∧
    (clear_file_ids stW).fileIds = .absent := by
  have h := C6_file_deleted_mid_sync Nat { envW with streamFile := fun _ => .error 404 }
    streamW (some ("UpdatedDate", 5)) stW 0 "f1" ["f2"] rfl
  exact h

/-- C7: when a data line's parsed cell count differs from the header's,
the stream's file_ids entry is removed, its version is reassigned to the
current integer wall clock, two STATE messages are flushed (one after
each of the two state mutations), the bookmark entry is untouched, and
the object's sync aborts with the non-rectangular error naming the found
and expected counts.  The theorem is stated at the first data line of a
file; the state is quantified, which covers any point mid-sync. -/
theorem C7_non_rectangular_csv :
    ∀ (α : Type) [inst : LinearOrder α] (env : Env α) (stream : StreamInfo)
      (rks : Option (String × α)) (st : TapState α) (c : Nat) (fid : String)
      (rest : List String) (headerLine : List String) (cells : List String),
      env.streamFile fid = .ok [headerLine, cells] →
      cells ≠ [] →
      (parse_header_line headerLine stream.tapStreamId).length ≠ cells.length →
      sync_file_ids_go env stream rks st c (fid :: rest) =
        .err (.nonRectangular fid cells.length
                (parse_header_line headerLine stream.tapStreamId).length)
            (clear_stateful_session env.now (clear_file_ids st))
            [.state (clear_file_ids st),
             .state (clear_stateful_session env.now (clear_file_ids st))] ∧
      (clear_stateful_session env.now (clear_file_ids st)).bookmark = st.bookmark ∧
      (clear_stateful_session env.now (clear_file_ids st)).version = some env.now ∧
      (clear_stateful_session env.now (clear_file_ids st)).fileIds = .absent := by
  intro α inst env stream rks st c fid rest headerLine cells hf hne hlen
  refine ⟨?_, rfl, rfl, rfl⟩
  simp only [sync_file_ids_go, hf]
  simp only [process_lines, process_line, if_neg hne, if_pos hlen]

/-- Witness for C7 at a concrete non-rectangular file: header of one
column, data row of two. -/
theorem C7_non_rectangular_csv_witness :
    sync_file_ids_go { envW with streamFile := fun _ => .ok [["Account.Id"], ["A", "2024"]] }
        streamW (some ("UpdatedDate", 5)) stW 0 ["f9"] =
      .err (.nonRectangular "f9" 2 1)
          (clear_stateful_session 1700000000 (clear_file_ids stW))
          [.state (clear_file_ids stW),
           .state (clear_stateful_session 1700000000 (clear_file_ids stW))] ∧
    (clear_stateful_session 1700000000 (clear_file_ids stW)).bookmark = stW.bookmark ∧
    (clear_stateful_session 1700000000 (clear_file_ids stW)).version = some 1700000000 ∧
    (clear_stateful_session 1700000000 (clear_file_ids stW)).fileIds = .absent := by
  have h := C7_non_rectangular_csv Nat
    { envW with streamFile := fun _ => .ok [["Account.Id"], ["A", "2024"]] }
    streamW (some ("UpdatedDate", 5)) stW 0 "f9" [] ["Account.Id"] ["A", "2024"]
    rfl (by decide) (by decide)
  exact h

/-- Counterexample to C2: a coerced row whose replication-key value is
exactly the bookmark at window start IS emitted as a RECORD, because the
drop filter of sync.py line 114 uses strict less-than and there is no
strictly-greater check before emitting: here the bookmark is 5, the
transformed row's UpdatedDate is 5, and the run's message log contains
the RECORD for that row. -/
theorem C2_counterexample :
    stW.bookmark = some 5 ∧
    (envC2.transform ((parse_header_line ["Account.Id", "Account.UpdatedDate"]
        "Account").zip ["A", "2024"])).lookup "UpdatedDate" = some 5 ∧
    Msg.record "Account" [("Id", 1), ("UpdatedDate", 5)] ∈
      (sync_file_ids envC2 streamW stW 0 ["f1"]).msgs := by decide

/-- C2 amended: for an incremental stream, a coerced row is dropped
exactly when its replication-key value is missing, falsy, or strictly
below the start_date captured at window start; a row whose value equals
the bookmark is emitted as a RECORD and the bookmark is rewritten to that
equal value (the filter is strict less-than; advancement has no
strictly-greater guard). -/
theorem C2_equal_bookmark_emitted :
    ∀ (α : Type) [inst : LinearOrder α] (env : Env α) (stream : StreamInfo)
      (rk : String) (d : α) (fid : String) (header : List String)
      (st : TapState α) (c : Nat) (cells : List String) (b : α),
      cells ≠ [] →
      header.length = cells.length →
      (env.transform (header.zip cells)).lookup rk = some b →
      ((env.isFalsy b = false → ¬ b < d →
        process_line env stream (some (rk, d)) fid header st c cells =
          .ok { st with bookmark := some b }
              [.record stream.tapStreamId (env.transform (header.zip cells)),
               .state { st with bookmark := some b }] (c + 1)) ∧
       (env.isFalsy b = true ∨ b < d →
        process_line env stream (some (rk, d)) fid header st c cells = .ok st [] c)) := by
  intro α inst env stream rk d fid header st c cells b hne hlen hlook
  have hlen2 : ¬ header.length ≠ cells.length := fun hcc => hcc hlen
  constructor
  · intro hf hlt
    have hcond : ¬ (env.isFalsy b = true ∨ b < d) := by
      intro hcase
      rcases hcase with h1 | h1
      · rw [hf] at h1; cases h1
      · exact hlt h1
    simp only [process_line, if_neg hne, if_neg hlen2, hlook, if_neg hcond]
  · intro hcase
    simp only [process_line, if_neg hne, if_neg hlen2, hlook, if_pos hcase]

/-- Witness for C2 amended: the equal-value row of the counterexample
environment is emitted with the bookmark rewritten to the same value. -/
theorem C2_equal_bookmark_emitted_witness :
    process_line envC2 streamW (some ("UpdatedDate", 5)) "f1" ["Id", "UpdatedDate"] stW 0
        ["A", "2024"] =
      .ok { stW with bookmark := some 5 }
          [.record "Account" [("Id", 1), ("UpdatedDate", 5)],
           .state { stW with bookmark := some 5 }] 1 := by
  have h := (C2_equal_bookmark_emitted Nat envC2 streamW "UpdatedDate" 5 "f1"
    ["Id", "UpdatedDate"] stW 0 ["A", "2024"] 5 (by decide) (by decide) (by decide)).1
    (by decide) (by decide)
  exact h

theorem sync_file_ids_go_empty_files [LinearOrder α] (env : Env α) (stream : StreamInfo)
    (rks : Option (String × α)) :
    ∀ (fids : List String) (st : TapState α) (c : Nat),
      (∀ f ∈ fids, ∃ hl, env.streamFile f = .ok [hl]) →
      ∃ ms, sync_file_ids_go env stream rks st c fids =
        .ok { st with fileIds := .null } ms c := by
  intro fids
  induction fids with
  | nil =>
    intro st c _
    exact ⟨[.state { st with fileIds := .null }], rfl⟩
  | cons f rest ih =>
    intro st c hall
    obtain ⟨hl, hf⟩ := hall f (List.mem_cons_self f rest)
    obtain ⟨ms, hms⟩ := ih { st with fileIds := .ids rest } c
      (fun g hg => hall g (List.mem_cons_of_mem f hg))
    refine ⟨([] ++ [.state { st with fileIds := FileIds.ids rest }]) ++ ms, ?_⟩
    simp only [sync_file_ids_go, hf, process_lines]
    rw [hms]
    rfl

/-- Counterexample to C3: in the AQuA attempt, the stored
current_window_end is adopted as the stream's bookmark before the
window's files are consumed, not after; here the attempt persists a STATE
whose bookmark is already the adopted window end 5 while file "f2" of the
window is still unconsumed. -/
theorem C3_counterexample :
    stC3.currentWindowEnd = some 5 ∧
    stC3.bookmark = some 1 ∧
    stC3mid.bookmark = some 5 ∧
    stC3mid.fileIds = .ids ["f2"] ∧
    Msg.state stC3mid ∈ (sync_aqua_stream envC3 streamW stC3 0).msgs := by decide

/-- C3 amended: when the state carries a current_window_end from a prior
run, sync_aqua_stream pops it and adopts it as the stream's bookmark
after the job's file ids are obtained and BEFORE the window's files are
consumed (the state handed to sync_file_ids already carries the adopted
bookmark); on clean completion of an empty window (files holding only a
header line) the final state still carries the adopted bookmark, so an
empty window advances the bookmark. -/
theorem C3_window_end_adoption :
    ∀ (env : Env Nat) (stream : StreamInfo) (st : TapState Nat) (counter : Nat)
      (w : Nat) (fids : List String),
      st.fileIds = .absent →
      env.aquaJob = .ok fids →
      st.currentWindowEnd = some w →
      env.isFalsy w = false →
      (sync_aqua_stream env stream st counter =
        (match sync_file_ids env stream
            { st with fileIds := .ids fids, currentWindowEnd := none, bookmark := some w }
            counter fids with
         | .ok a b c => AquaOutcome.done a b c
         | .err e a b => AquaOutcome.err e a b).withMsgs
          [.state { st with fileIds := .ids fids }]) ∧
      ((∀ f ∈ fids, ∃ hl, env.streamFile f = .ok [hl]) →
        ∃ ms, sync_aqua_stream env stream st counter =
          .done { st with fileIds := .null, currentWindowEnd := none, bookmark := some w }
            ms counter) := by
  intro env stream st counter w fids hfids hjob hcw hfal
  have hmain : sync_aqua_stream env stream st counter =
      (match sync_file_ids env stream
          { st with fileIds := .ids fids, currentWindowEnd := none, bookmark := some w }
          counter fids with
       | .ok a b c => AquaOutcome.done a b c
       | .err e a b => AquaOutcome.err e a b).withMsgs
        [.state { st with fileIds := .ids fids }] := by
    rw [sync_aqua_stream]
    rw [hfids, hjob]
    simp only [aqua_consume, hcw, hfal]
    rfl
  refine ⟨hmain, ?_⟩
  intro hempty
  cases hrk : stream.replicationKey with
  | none =>
    obtain ⟨ms, hms⟩ := sync_file_ids_go_empty_files env stream none fids
      { st with fileIds := .ids fids, currentWindowEnd := none, bookmark := some w }
      counter hempty
    refine ⟨[.state { st with fileIds := FileIds.ids fids }] ++ ms, ?_⟩
    rw [hmain]
    simp only [sync_file_ids, hrk]
    rw [hms]
    rfl
  | some rk =>
    obtain ⟨ms, hms⟩ := sync_file_ids_go_empty_files env stream (some (rk, w)) fids
      { st with fileIds := .ids fids, currentWindowEnd := none, bookmark := some w }
      counter hempty
    refine ⟨[.state { st with fileIds := FileIds.ids fids }] ++ ms, ?_⟩
    rw [hmain]
    simp only [sync_file_ids, hrk]
    rw [hms]
    rfl

/-- Witness for C3 amended, at the counterexample inputs: the attempt
equals the adopted-state consumption, and the empty window completes with
the bookmark advanced to the adopted window end 5. -/
theorem C3_window_end_adoption_witness :
    (sync_aqua_stream envC3 streamW stC3 0 =
      (match sync_file_ids envC3 streamW
          { stC3 with fileIds := .ids ["f1", "f2"], currentWindowEnd := none, bookmark := some 5 }
          0 ["f1", "f2"] with
       | .ok a b c => AquaOutcome.done a b c
       | .err e a b => AquaOutcome.err e a b).withMsgs
        [.state { stC3 with fileIds := .ids ["f1", "f2"] }]) ∧
    (∃ ms, sync_aqua_stream envC3 streamW stC3 0 =
      .done { stC3 with fileIds := .null, currentWindowEnd := none, bookmark := some 5 }
        ms 0) := by
  have h := C3_window_end_adoption envC3 streamW stC3 0 5 ["f1", "f2"] rfl rfl rfl rfl
  exact ⟨h.1, h.2 (by intro f hf; exact ⟨["Account.Id", "Account.UpdatedDate"], rfl⟩)⟩

/-- C4: in AQuA mode, when polling times out for an incremental stream,
handle_aqua_timeout sets current_window_end to previous_window_end minus
half of (previous_window_end minus bookmark), where previous_window_end
defaults to the current wall clock when no current_window_end is stored;
the new state is flushed; and sync_aqua_stream signals a retry of the job
with exactly that persisted state.  When previous_window_end already
equals the bookmark, it raises the export-too-large ExportFailed
instead. -/
theorem C4_aqua_timeout_halving :
    ∀ (env : Env Nat) (stream : StreamInfo) (rk : String) (st : TapState Nat) (b : Nat),
      stream.replicationKey = some rk →
      st.bookmark = some b →
      ((st.currentWindowEnd.getD env.now = b →
        handle_aqua_timeout env stream st = .error (.exportFailed exportTooLargeMsg)) ∧
       (∀ prev, st.currentWindowEnd.getD env.now = prev → prev ≠ b →
        handle_aqua_timeout env stream st =
          .ok ({ st with currentWindowEnd := some (prev - (prev - b) / 2) },
               [.state { st with currentWindowEnd := some (prev - (prev - b) / 2) }])) ∧
       (st.fileIds = .absent → env.aquaJob = .timeout →
        ∀ st2 m2, handle_aqua_timeout env stream st = .ok (st2, m2) →
        ∀ c, sync_aqua_stream env stream st c = .retry st2 m2)) := by
  intro env stream rk st b hrk hb
  refine ⟨?_, ?_, ?_⟩
  · intro heq
    simp [handle_aqua_timeout, hrk, hb, heq]
  · intro prev hprev hne
    simp only [handle_aqua_timeout, hrk, hb, hprev, if_neg hne]
  · intro hfids hjob st2 m2 hh c
    rw [sync_aqua_stream, hfids, hjob, hh]

/-- Witness for C4: bookmark 5, stored current_window_end 9, so the new
current_window_end is 9 - (9 - 5) / 2 = 7, flushed and retried; with
current_window_end equal to the bookmark the handler fails instead. -/
theorem C4_aqua_timeout_halving_witness :
    (handle_aqua_timeout envW streamW { stW with currentWindowEnd := some 9 } =
      .ok ({ stW with currentWindowEnd := some 7 },
           [.state { stW with currentWindowEnd := some 7 }])) ∧
    (handle_aqua_timeout envW streamW { stW with currentWindowEnd := some 5 } =
      .error (.exportFailed exportTooLargeMsg)) ∧
    (sync_aqua_stream envW streamW { stW with currentWindowEnd := some 9 } 0 =
      .retry { stW with currentWindowEnd := some 7 }
        [.state { stW with currentWindowEnd := some 7 }]) := by
  refine ⟨?_, ?_, ?_⟩
  · exact (C4_aqua_timeout_halving envW streamW "UpdatedDate"
      { stW with currentWindowEnd := some 9 } 5 rfl rfl).2.1 9 rfl (by decide)
  · exact (C4_aqua_timeout_halving envW streamW "UpdatedDate"
      { stW with currentWindowEnd := some 5 } 5 rfl rfl).1 rfl
  · exact (C4_aqua_timeout_halving envW streamW "UpdatedDate"
      { stW with currentWindowEnd := some 9 } 5 rfl rfl).2.2 rfl rfl _ _
      ((C4_aqua_timeout_halving envW streamW "UpdatedDate"
        { stW with currentWindowEnd := some 9 } 5 rfl rfl).2.1 9 rfl (by decide)) 0

/-- C8 evaluated at the failing input: the transport's check_for_error
passes the 400 noSuchDataSource response through without raising, but
Client._request then raises ApiException because the status is not 200;
the availability-probe section of discover_stream has no handler for it
(the try/except wraps only get_field_dict), so during the probe the error
propagates to the caller instead of the stream being quietly excluded.
The describe step, whose ApiException handler returns None, is the only
place this response is swallowed. -/
theorem C8_noSuchDataSource_probe_raises :
    check_for_error respNoSuchDataSource false = .ok () ∧
    client_request respNoSuchDataSource = .error (.apiException 400) ∧
    discover_stream_probe respNoSuchDataSource = .error (.apiException 400) ∧
    discover_stream_describe respNoSuchDataSource = .ok none :=
  ⟨rfl, rfl, rfl, rfl⟩

/-- Counterexample to C9: schema-synthesis nullability is keyed on the
supported flag, not on required: the required and supported field gets
the two-element nullable type, and a non-required but unsupported-typed
field keeps a bare type. -/
theorem C9_counterexample :
    (discover_field_schema { type := some "string", required := true, supported := true }).1
      = .withNull (some "string") ∧
    (discover_field_schema { type := some "string", required := false, supported := false }).1
      = .plain (some "string") := by decide

/-- C9 amended: in schema synthesis, a declared date or datetime type
becomes string with format date-time, and exactly the fields marked
supported get the nullable two-element type, regardless of the required
flag. -/
theorem C9_field_schema :
    ∀ props : FieldProps,
      ((props.type = some "date" ∨ props.type = some "datetime") →
        discover_field_schema props =
          ((if props.supported then JType.withNull (some "string")
            else JType.plain (some "string")), some "date-time")) ∧
      ((∃ t, (discover_field_schema props).1 = .withNull t) ↔ props.supported = true) := by
  intro props
  constructor
  · intro hd
    simp only [discover_field_schema, if_pos hd]
  · cases hs : props.supported with
    | true =>
      simp only [discover_field_schema, hs, if_true, iff_true]
      exact ⟨_, rfl⟩
    | false =>
      simp only [discover_field_schema, hs, if_false]
      constructor
      · intro ⟨t, ht⟩
        cases ht
      · intro h
        cases h

/-- Witness for C9 amended: a supported datetime field and a supported
boolean field. -/
theorem C9_field_schema_witness :
    discover_field_schema { type := some "datetime", required := false, supported := true } =
      (.withNull (some "string"), some "date-time") ∧
    ∃ t, (discover_field_schema { type := some "boolean", required := true, supported := true }).1
      = .withNull t :=
  ⟨(C9_field_schema { type := some "datetime", required := false, supported := true }).1
    (Or.inr rfl),
   (C9_field_schema { type := some "boolean", required := true, supported := true }).2.mpr rfl⟩

/-- C10: Aqua.stream_status raises on any probe response whose message is
neither the fixed syntax-error string nor the fixed no-deleted-support
string, and classifies a response as available_with_deleted exactly when
it has no message field. -/
theorem C10_aqua_probe_status :
    ∀ (stream_name : String) (m : Option String),
      ((∀ s, m = some s → s ≠ SYNTAX_ERROR → s ≠ NO_DELETED_SUPPORT →
        aqua_stream_status stream_name m =
          .error ("Error probing " ++ stream_name ++ ": " ++ s)) ∧
       (aqua_stream_status stream_name m = .ok "available_with_deleted" ↔ m = none)) := by
  intro stream_name m
  constructor
  · intro s hm h1 h2
    subst hm
    simp only [aqua_stream_status, if_neg h1, if_neg h2]
  · constructor
    · intro h
      cases m with
      | none => rfl
      | some s =>
        simp only [aqua_stream_status] at h
        split at h
        · simp only [Except.ok.injEq] at h
          exact absurd h (by decide)
        · split at h
          · simp only [Except.ok.injEq] at h
            exact absurd h (by decide)
          · cases h
    · intro h
      subst h
      rfl

/-- Witness for C10: an unexpected probe message raises, and an absent
message yields available_with_deleted. -/
theorem C10_aqua_probe_status_witness :
    aqua_stream_status "Account" (some "boom") =
      .error ("Error probing " ++ "Account" ++ ": " ++ "boom") ∧
    aqua_stream_status "Account" none = .ok "available_with_deleted" :=
  ⟨(C10_aqua_probe_status "Account" (some "boom")).1 "boom" rfl (by decide) (by decide),
   (C10_aqua_probe_status "Account" none).2.mpr rfl⟩
